import Mathlib

/-!
Verification of the zero-dimensional energy-balance teaching model.

The repository holds two near-duplicate React components; all numerical
logic lives in a handful of pure constants and functions that we embed
here over the real numbers: the Stefan–Boltzmann constant `SIGMA`, the
baseline reference record `BASE`, the one-time calibration
`baselineGreenhouseF0` producing `F0`, the CO₂ radiative-forcing formula
`forcingCO2`, the helper `clamp`, and the `derived` computation that
composes the planetary albedo, the net forcing and the equilibrium
temperatures.  Namespace `App` embeds `src/src/App.jsx`; namespace
`Part000` embeds the second variant file.  JavaScript `Math.pow` is
modelled by real `rpow`, `Math.log` by `Real.log`, `Math.max`/`Math.min`
by `max`/`min` on ℝ.  The finiteness behaviour of `Math.log` at
non-positive arguments (−∞ at 0, NaN below) is modelled separately by
the extended value type `JsVal`.
-/

noncomputable section

namespace App

/-- Stefan–Boltzmann constant (W m⁻² K⁻⁴); `const SIGMA` in App.jsx. -/
def SIGMA : ℝ := 5.670374419e-8

/-- The shape of the baseline reference record `BASE` in App.jsx. -/
structure BaseVals where
  S : ℝ
  albedo : ℝ
  T_obs : ℝ
  C0 : ℝ
  C_now : ℝ

/-- Baseline reference values (roughly present-day); `const BASE` in App.jsx. -/
def BASE : BaseVals :=
  { S := 1361, albedo := 0.3, T_obs := 288.0, C0 := 280, C_now := 420 }

/-- Calibration: the constant background greenhouse forcing making the model
hit `T_obs` at baseline; `function baselineGreenhouseF0()` in App.jsx. -/
def baselineGreenhouseF0 : ℝ :=
  let absorbed := ((1 - BASE.albedo) * BASE.S) / 4
  let sigmaT4 := SIGMA * BASE.T_obs ^ (4 : ℝ)
  sigmaT4 - absorbed

/-- Embeds `const F0 = baselineGreenhouseF0()` of App.jsx. -/
def F0 : ℝ := baselineGreenhouseF0

/-- CO₂ radiative forcing approximation (Myhre et al. 1998);
`function forcingCO2(C, C0 = BASE.C0)` in App.jsx. -/
def forcingCO2 (C : ℝ) (C0 : ℝ := BASE.C0) : ℝ :=
  5.35 * Real.log (C / C0)

/-- Embeds `function clamp(x, min, max)` of App.jsx: `Math.max(min, Math.min(max, x))`. -/
def clamp (x lo hi : ℝ) : ℝ :=
  max lo (min hi x)

/-- The shape of the albedo-endpoint record `ALBEDO` in App.jsx. -/
structure AlbedoVals where
  ocean : ℝ
  land : ℝ
  ice : ℝ

/-- Albedo endpoints for simple mixing; `const ALBEDO` in App.jsx. -/
def ALBEDO : AlbedoVals :=
  { ocean := 0.06, land := 0.25, ice := 0.6 }

/-- The record returned by the `derived` memo in App.jsx. -/
structure Derived where
  alpha : ℝ
  absorbed : ℝ
  Fco2 : ℝ
  Fnet : ℝ
  T : ℝ
  T_C : ℝ
  Te_noGHG : ℝ
  Te_noGHG_C : ℝ
  dT_from_baseline : ℝ
  dT_from_baseline_C : ℝ
  oceanFrac : ℝ
  landOnlyFrac : ℝ

/-- The `derived` computation of App.jsx (lines 49–93), as a pure function of
the six slider inputs. -/
def derived (S co2 otherForcing iceFrac cloudAlbedoDelta landFrac : ℝ) : Derived :=
  let nonIceFrac := clamp (1 - iceFrac) 0 1
  let oceanFrac := clamp (1 - landFrac) 0 1 * nonIceFrac
  let landOnlyFrac := landFrac * nonIceFrac
  let albedo_surface :=
    oceanFrac * ALBEDO.ocean + landOnlyFrac * ALBEDO.land + iceFrac * ALBEDO.ice
  let alpha := clamp (albedo_surface + cloudAlbedoDelta) 0.0 0.8
  let Fco2 := forcingCO2 co2 BASE.C0
  let Fnet := F0 + otherForcing + Fco2
  let absorbed := ((1 - alpha) * S) / 4
  let rhs := max 1e-3 (absorbed + Fnet)
  let T := (rhs / SIGMA) ^ (0.25 : ℝ)
  let Te_noGHG := (absorbed / SIGMA) ^ (0.25 : ℝ)
  let dT_from_baseline := T - BASE.T_obs
  let toC := fun (K : ℝ) => K - 273.15
  { alpha := alpha
    absorbed := absorbed
    Fco2 := Fco2
    Fnet := Fnet
    T := T
    T_C := toC T
    Te_noGHG := Te_noGHG
    Te_noGHG_C := toC Te_noGHG
    dT_from_baseline := dT_from_baseline
    dT_from_baseline_C := toC T - toC BASE.T_obs
    oceanFrac := oceanFrac
    landOnlyFrac := landOnlyFrac }

/-- The absorbed-shortwave step of the equilibrium solve (App.jsx line 68),
parameterised by solar constant and albedo. -/
def absorbedOf (S alpha : ℝ) : ℝ :=
  ((1 - alpha) * S) / 4

/-- The floored right-hand side of the energy balance (App.jsx line 69):
`Math.max(1e-3, absorbed + Fnet)`. -/
def rhsOf (S alpha Fnet : ℝ) : ℝ :=
  max 1e-3 (absorbedOf S alpha + Fnet)

/-- The equilibrium-temperature solve (App.jsx line 70):
`Math.pow(rhs / SIGMA, 0.25)`. -/
def solveEquilibriumT (S alpha Fnet : ℝ) : ℝ :=
  (rhsOf S alpha Fnet / SIGMA) ^ (0.25 : ℝ)

/-- The `derived` field `T` is exactly the parameterised equilibrium solve
applied to the composed albedo and net forcing. -/
theorem derived_T_eq (S co2 otherForcing iceFrac cloudAlbedoDelta landFrac : ℝ) :
    (derived S co2 otherForcing iceFrac cloudAlbedoDelta landFrac).T =
      solveEquilibriumT S
        (derived S co2 otherForcing iceFrac cloudAlbedoDelta landFrac).alpha
        (derived S co2 otherForcing iceFrac cloudAlbedoDelta landFrac).Fnet := rfl

/-- SIGMA is positive. -/
theorem SIGMA_pos : 0 < SIGMA := by
  unfold SIGMA; norm_num

/-- The calibrated flux `σ·T_obs⁴` is well above the 1e-3 floor. -/
theorem sigmaT4_large : (1e-3 : ℝ) ≤ SIGMA * (288 : ℝ) ^ (4 : ℕ) := by
  unfold SIGMA; norm_num

end App

/-- Claim C1 — Calibration round-trip: with `F0 = calibrate()` (that is,
`F0 = σ·T_obs⁴ − (1−α₀)·S₀/4` from the reference constants `S₀ = 1361`,
`α₀ = 0.30`, `T_obs = 288.0`), feeding `S₀`, `α₀` and total forcing
`Fnet = F0` (zero CO₂ and other forcing) into the equilibrium solve
`T = (max(absorbed + Fnet, 1e-3)/σ)^(1/4)` returns exactly
`T_obs = 288.0 K` (in the real-number model the round-trip is exact, hence
within any floating-point tolerance). -/
theorem calibration_roundtrip :
    App.solveEquilibriumT App.BASE.S App.BASE.albedo App.F0 = App.BASE.T_obs := by
  have h4 : ((288 : ℝ) ^ (4 : ℝ)) = (288 : ℝ) ^ (4 : ℕ) := by
    rw [show ((4 : ℝ)) = ((4 : ℕ) : ℝ) by norm_num, Real.rpow_natCast]
  have hrhs : App.rhsOf App.BASE.S App.BASE.albedo App.F0
      = App.SIGMA * (288 : ℝ) ^ (4 : ℕ) := by
    unfold App.rhsOf App.absorbedOf App.F0 App.baselineGreenhouseF0
    rw [max_eq_right]
    · show ((1 - App.BASE.albedo) * App.BASE.S) / 4 +
        (App.SIGMA * App.BASE.T_obs ^ (4 : ℝ) - ((1 - App.BASE.albedo) * App.BASE.S) / 4)
          = App.SIGMA * (288 : ℝ) ^ (4 : ℕ)
      have : App.BASE.T_obs = (288 : ℝ) := by norm_num [App.BASE]
      rw [this, h4]; ring
    · show (1e-3 : ℝ) ≤ ((1 - App.BASE.albedo) * App.BASE.S) / 4 +
        (App.SIGMA * App.BASE.T_obs ^ (4 : ℝ) - ((1 - App.BASE.albedo) * App.BASE.S) / 4)
      have : App.BASE.T_obs = (288 : ℝ) := by norm_num [App.BASE]
      rw [this, h4]
      have := App.sigmaT4_large
      linarith
  unfold App.solveEquilibriumT
  rw [hrhs, mul_div_cancel_left₀ _ (ne_of_gt App.SIGMA_pos)]
  rw [← Real.rpow_natCast (288 : ℝ) 4, ← Real.rpow_mul (by norm_num : (0 : ℝ) ≤ 288)]
  norm_num [App.BASE]

namespace App

/-- Written-out form of the composed albedo field of `derived`. -/
theorem derived_alpha_def (S co2 otherForcing iceFrac cloudAlbedoDelta landFrac : ℝ) :
    (derived S co2 otherForcing iceFrac cloudAlbedoDelta landFrac).alpha =
      clamp (clamp (1 - landFrac) 0 1 * clamp (1 - iceFrac) 0 1 * ALBEDO.ocean +
          landFrac * clamp (1 - iceFrac) 0 1 * ALBEDO.land +
          iceFrac * ALBEDO.ice + cloudAlbedoDelta) 0.0 0.8 := rfl

/-- Written-out form of the ocean-fraction field of `derived`. -/
theorem derived_oceanFrac_def (S co2 otherForcing iceFrac cloudAlbedoDelta landFrac : ℝ) :
    (derived S co2 otherForcing iceFrac cloudAlbedoDelta landFrac).oceanFrac =
      clamp (1 - landFrac) 0 1 * clamp (1 - iceFrac) 0 1 := rfl

/-- Written-out form of the land-only-fraction field of `derived`. -/
theorem derived_landOnlyFrac_def (S co2 otherForcing iceFrac cloudAlbedoDelta landFrac : ℝ) :
    (derived S co2 otherForcing iceFrac cloudAlbedoDelta landFrac).landOnlyFrac =
      landFrac * clamp (1 - iceFrac) 0 1 := rfl

/-- The function `clamp` is the identity on values already inside the interval. -/
theorem clamp_of_mem (x lo hi : ℝ) (h1 : lo ≤ x) (h2 : x ≤ hi) :
    clamp x lo hi = x := by
  unfold clamp
  rw [min_eq_right h2, max_eq_right h1]

/-- The function `clamp` lands in the interval whenever the interval is nonempty. -/
theorem clamp_mem (x lo hi : ℝ) (h : lo ≤ hi) :
    lo ≤ clamp x lo hi ∧ clamp x lo hi ≤ hi := by
  unfold clamp
  exact ⟨le_max_left _ _, max_le h (min_le_left _ _)⟩

end App

/-- Claim C2, counterexample: composing the albedo with `iceFrac = 2.0`,
`landFrac = 0.5`, `cloudDelta = 0` does NOT produce the same effective albedo
as `iceFrac = 1.0`, `landFrac = 0.5`, `cloudDelta = 0` (the raw `iceFrac` is
not clamped before it enters the ice-albedo term; the values are 0.8 and 0.6
respectively).  The remaining inputs are the source defaults
`S = 1361`, `co2 = 420`, `otherForcing = 0`. -/
theorem albedo_not_clamped_counterexample :
    (App.derived 1361 420 0 2.0 0 0.5).alpha ≠ (App.derived 1361 420 0 1.0 0 0.5).alpha := by
  rw [App.derived_alpha_def, App.derived_alpha_def]
  norm_num [App.clamp, App.ALBEDO, min_def, max_def]

/-- Claim C2, amended: out-of-range `iceFrac` is NOT clamped before use in the
ice-albedo term (only `1 − iceFrac` and the final alpha are clamped), so
`iceFrac = 2.0`, `landFrac = 0.5`, `cloudDelta = 0` yields effective albedo
exactly 0.8 (the final clamp's upper bound) while `iceFrac = 1.0`,
`landFrac = 0.5`, `cloudDelta = 0` yields exactly 0.6; no error is raised in
either case — the computation stays total and the result stays in [0, 0.8]. -/
theorem albedo_overrange_values (S co2 otherForcing : ℝ) :
    (App.derived S co2 otherForcing 2.0 0 0.5).alpha = 0.8 ∧
    (App.derived S co2 otherForcing 1.0 0 0.5).alpha = 0.6 := by
  rw [App.derived_alpha_def, App.derived_alpha_def]
  norm_num [App.clamp, App.ALBEDO, min_def, max_def]

/-- Claim C3 — Albedo output bounds: for every real input triple
(`iceFrac`, `landFrac`, `cloudAlbedoDelta`), however extreme, the composed
effective planetary albedo (a clamp of the weighted surface mix plus the cloud
delta to [0.0, 0.8]) lies in the closed interval [0.0, 0.8]; being a real
number of the model it is in particular finite. -/
theorem albedo_bounds (S co2 otherForcing iceFrac cloudAlbedoDelta landFrac : ℝ) :
    0 ≤ (App.derived S co2 otherForcing iceFrac cloudAlbedoDelta landFrac).alpha ∧
    (App.derived S co2 otherForcing iceFrac cloudAlbedoDelta landFrac).alpha ≤ 0.8 := by
  rw [App.derived_alpha_def]
  have h := App.clamp_mem (App.clamp (1 - landFrac) 0 1 * App.clamp (1 - iceFrac) 0 1 *
      App.ALBEDO.ocean + landFrac * App.clamp (1 - iceFrac) 0 1 * App.ALBEDO.land +
      iceFrac * App.ALBEDO.ice + cloudAlbedoDelta) 0.0 0.8 (by norm_num)
  constructor
  · linarith [h.1]
  · exact h.2

/-- Claim C4 — Surface-fraction partition invariant: for every `iceFrac` and
`landFrac` in [0,1], the derived fractions satisfy
`oceanFrac + landOnlyFrac + iceFrac = 1` exactly, where
`oceanFrac = clamp(1−landFrac,0,1)·clamp(1−iceFrac,0,1)` and
`landOnlyFrac = landFrac·clamp(1−iceFrac,0,1)`. -/
theorem surface_fraction_partition
    (S co2 otherForcing iceFrac cloudAlbedoDelta landFrac : ℝ)
    (hi0 : 0 ≤ iceFrac) (hi1 : iceFrac ≤ 1) (hl0 : 0 ≤ landFrac) (hl1 : landFrac ≤ 1) :
    (App.derived S co2 otherForcing iceFrac cloudAlbedoDelta landFrac).oceanFrac +
      (App.derived S co2 otherForcing iceFrac cloudAlbedoDelta landFrac).landOnlyFrac +
      iceFrac = 1 := by
  rw [App.derived_oceanFrac_def, App.derived_landOnlyFrac_def]
  rw [App.clamp_of_mem (1 - iceFrac) 0 1 (by linarith) (by linarith)]
  rw [App.clamp_of_mem (1 - landFrac) 0 1 (by linarith) (by linarith)]
  ring

/-- Witness for claim C4 at `iceFrac = 1/2`, `landFrac = 1/4` (and arbitrary
concrete values for the remaining inputs). -/
theorem surface_fraction_partition_witness :
    (App.derived 1361 420 0 (1/2) 0 (1/4)).oceanFrac +
      (App.derived 1361 420 0 (1/2) 0 (1/4)).landOnlyFrac + (1/2 : ℝ) = 1 :=
  surface_fraction_partition 1361 420 0 (1/2) 0 (1/4)
    (by norm_num) (by norm_num) (by norm_num) (by norm_num)

/-- Claim C5 — CO₂ forcing formula and its anchor points: the reference
concentration is `C0 = 280`; for every `C`, `forcingCO2 C 280 = 5.35·ln(C/280)`;
`forcingCO2 280 280 = 0` exactly; `forcingCO2 C 280 < 0` for `0 < C < 280`;
and `forcingCO2 560 280 = 5.35·ln 2`, numerically between 3.70 and 3.72
(≈ 3.71 W/m²). -/
theorem forcingCO2_formula_anchors :
    App.BASE.C0 = 280 ∧
    (∀ C : ℝ, App.forcingCO2 C 280 = 5.35 * Real.log (C / 280)) ∧
    App.forcingCO2 280 280 = 0 ∧
    (∀ C : ℝ, 0 < C → C < 280 → App.forcingCO2 C 280 < 0) ∧
    App.forcingCO2 560 280 = 5.35 * Real.log 2 ∧
    3.70 < App.forcingCO2 560 280 ∧ App.forcingCO2 560 280 < 3.72 := by
  have h560 : App.forcingCO2 560 280 = 5.35 * Real.log 2 := by
    unfold App.forcingCO2
    norm_num
  refine ⟨by norm_num [App.BASE], fun C => rfl, ?_, ?_, h560, ?_, ?_⟩
  · unfold App.forcingCO2
    rw [div_self (by norm_num : (280 : ℝ) ≠ 0), Real.log_one, mul_zero]
  · intro C h1 h2
    unfold App.forcingCO2
    have hlog : Real.log (C / 280) < 0 :=
      Real.log_neg (by positivity) ((div_lt_one (by norm_num)).mpr h2)
    linarith
  · rw [h560]
    have := Real.log_two_gt_d9
    linarith
  · rw [h560]
    have := Real.log_two_lt_d9
    linarith

/-- Witness for claim C5 at the concrete concentration `C = 140 < 280`: the
forcing is negative there. -/
theorem forcingCO2_formula_anchors_witness :
    App.forcingCO2 140 280 < 0 :=
  forcingCO2_formula_anchors.2.2.2.1 140 (by norm_num) (by norm_num)

/-- Claim C6 — Strict monotonicity of the CO₂ forcing: for every pair of
concentrations with `0 < C1 < C2` and fixed reference `C0 = 280`,
`forcingCO2 C1 280 < forcingCO2 C2 280`. -/
theorem forcingCO2_strict_mono (C1 C2 : ℝ) (h0 : 0 < C1) (h12 : C1 < C2) :
    App.forcingCO2 C1 280 < App.forcingCO2 C2 280 := by
  unfold App.forcingCO2
  have hlog : Real.log (C1 / 280) < Real.log (C2 / 280) := by
    apply Real.log_lt_log (by positivity)
    gcongr
  linarith

/-- Witness for claim C6 at the pre-industrial and doubled concentrations
`C1 = 280`, `C2 = 560`. -/
theorem forcingCO2_strict_mono_witness :
    App.forcingCO2 280 280 < App.forcingCO2 560 280 :=
  forcingCO2_strict_mono 280 560 (by norm_num) (by norm_num)

/-- Claim C7 — Equilibrium-solve totality under the epsilon floor: for every
`S`, every `alpha` in [0, 0.8], and every real `Fnet` (however negative), the
right-hand side `max(1e-3, absorbed + Fnet)` is at least `1e-3`, and the
equilibrium temperature `T = (rhs/σ)^(1/4)` is strictly positive — in the
real-number model it can never be negative, zero, or undefined. -/
theorem equilibrium_floor (S alpha Fnet : ℝ) (h0 : 0 ≤ alpha) (h8 : alpha ≤ 0.8) :
    1e-3 ≤ App.rhsOf S alpha Fnet ∧ 0 < App.solveEquilibriumT S alpha Fnet := by
  have hfloor : (1e-3 : ℝ) ≤ App.rhsOf S alpha Fnet := le_max_left _ _
  refine ⟨hfloor, ?_⟩
  unfold App.solveEquilibriumT
  apply Real.rpow_pos_of_pos
  apply div_pos _ App.SIGMA_pos
  calc (0 : ℝ) < 1e-3 := by norm_num
    _ ≤ App.rhsOf S alpha Fnet := hfloor

/-- Witness for claim C7 at the spec's extreme scenario
`S = 1361`, `alpha = 0.8`, `Fnet = −1000`. -/
theorem equilibrium_floor_witness :
    1e-3 ≤ App.rhsOf 1361 0.8 (-1000) ∧ 0 < App.solveEquilibriumT 1361 0.8 (-1000) :=
  equilibrium_floor 1361 0.8 (-1000) (by norm_num) (by norm_num)

/-- Extended value type for the IEEE-754 double results relevant to the CO₂
forcing path: a finite real, the two infinities, or NaN. -/
inductive JsVal where
  | fin (x : ℝ)
  | posInf
  | negInf
  | nan

/-- A `JsVal` is finite exactly when it carries a real number. -/
def JsVal.isFinite : JsVal → Bool
  | .fin _ => true
  | _ => false

/-- JavaScript `Math.log` with its IEEE-754 edge behaviour made explicit:
the natural logarithm for positive arguments, `−∞` at `0`, `NaN` for negative
arguments. -/
def jsLog (x : ℝ) : JsVal :=
  if 0 < x then .fin (Real.log x)
  else if x = 0 then .negInf
  else .nan

/-- IEEE-754 multiplication by the positive finite constant `5.35`: scales a
finite value and preserves each non-finite class (`5.35·(−∞) = −∞`,
`5.35·NaN = NaN`). -/
def jsMul535 : JsVal → JsVal
  | .fin x => .fin (5.35 * x)
  | .posInf => .posInf
  | .negInf => .negInf
  | .nan => .nan

/-- The `forcingCO2` computation of App.jsx with the non-finite behaviour of
`Math.log` tracked: `5.35 * Math.log(C / C0)`. -/
def forcingCO2ext (C C0 : ℝ) : JsVal :=
  jsMul535 (jsLog (C / C0))

/-- Claim C8 — Unguarded precondition of the CO₂ forcing: with `C0 = 280`,
the result of `forcingCO2` is finite if and only if `C > 0`; for positive `C`
it is the finite real computed by the formula, and for every `C ≤ 0` it is
non-finite (NaN or −∞) — the core contains no guard, clamp, or error branch
for non-positive concentrations. -/
theorem forcingCO2_unguarded (C : ℝ) :
    ((forcingCO2ext C 280).isFinite = true ↔ 0 < C) ∧
    (0 < C → forcingCO2ext C 280 = JsVal.fin (App.forcingCO2 C 280)) ∧
    (C ≤ 0 → forcingCO2ext C 280 = JsVal.nan ∨ forcingCO2ext C 280 = JsVal.negInf) := by
  rcases lt_trichotomy C 0 with h | h | h
  · have hq : C / 280 < 0 := div_neg_of_neg_of_pos h (by norm_num)
    simp [forcingCO2ext, jsLog, jsMul535, JsVal.isFinite, asymm hq, ne_of_lt hq,
      asymm h, h.le]
  · subst h
    norm_num [forcingCO2ext, jsLog, jsMul535, JsVal.isFinite]
  · have hq : 0 < C / 280 := by positivity
    simp [forcingCO2ext, jsLog, jsMul535, JsVal.isFinite, hq, h, not_le.mpr h,
      App.forcingCO2]

/-- Witness for claim C8 at the concrete concentrations `C = 560` (finite,
equal to the formula value) and `C = −1` (non-finite). -/
theorem forcingCO2_unguarded_witness :
    forcingCO2ext 560 280 = JsVal.fin (App.forcingCO2 560 280) ∧
    (forcingCO2ext (-1) 280 = JsVal.nan ∨ forcingCO2ext (-1) 280 = JsVal.negInf) :=
  ⟨(forcingCO2_unguarded 560).2.1 (by norm_num),
   (forcingCO2_unguarded (-1)).2.2 (by norm_num)⟩

namespace App

/-- Written-out form of the no-greenhouse temperature field of `derived`. -/
theorem derived_Te_noGHG_def (S co2 otherForcing iceFrac cloudAlbedoDelta landFrac : ℝ) :
    (derived S co2 otherForcing iceFrac cloudAlbedoDelta landFrac).Te_noGHG =
      (((1 - (derived S co2 otherForcing iceFrac cloudAlbedoDelta landFrac).alpha) * S) / 4 /
        SIGMA) ^ (0.25 : ℝ) := rfl

end App

/-- If `a ≥ 0` and `a⁴ < x` then `a < x^(1/4)` (real rpow). -/
theorem lt_rpow_quarter_of_pow_lt (a x : ℝ) (ha : 0 ≤ a) (h : a ^ (4 : ℕ) < x) :
    a < x ^ (0.25 : ℝ) := by
  have hstep := Real.rpow_lt_rpow (by positivity : (0:ℝ) ≤ a ^ (4 : ℕ)) h
    (by norm_num : (0:ℝ) < 0.25)
  rwa [← Real.rpow_natCast a 4, ← Real.rpow_mul ha,
    show ((4 : ℕ) : ℝ) * (0.25 : ℝ) = 1 by norm_num, Real.rpow_one] at hstep

/-- If `0 ≤ x < b⁴` with `b ≥ 0` then `x^(1/4) < b` (real rpow). -/
theorem rpow_quarter_lt_of_lt_pow (x b : ℝ) (hx : 0 ≤ x) (hb : 0 ≤ b)
    (h : x < b ^ (4 : ℕ)) : x ^ (0.25 : ℝ) < b := by
  have hstep := Real.rpow_lt_rpow hx h (by norm_num : (0:ℝ) < 0.25)
  rwa [← Real.rpow_natCast b 4, ← Real.rpow_mul hb,
    show ((4 : ℕ) : ℝ) * (0.25 : ℝ) = 1 by norm_num, Real.rpow_one] at hstep

/-- Claim C9 — No-greenhouse temperature is forcing-independent: two
evaluations of `derived` that agree on `S`, `iceFrac`, `landFrac` and
`cloudAlbedoDelta` but differ arbitrarily in `co2` and `otherForcing` compute
the identical `Te_noGHG`; and whenever the composed albedo equals 0.30 and
`S = 1361`, that value lies within 0.5 K of 255.0 K. -/
theorem te_noGHG_forcing_independent :
    (∀ S iceFrac cloudAlbedoDelta landFrac co2 otherForcing co2' otherForcing' : ℝ,
      (App.derived S co2 otherForcing iceFrac cloudAlbedoDelta landFrac).Te_noGHG =
        (App.derived S co2' otherForcing' iceFrac cloudAlbedoDelta landFrac).Te_noGHG) ∧
    (∀ S co2 otherForcing iceFrac cloudAlbedoDelta landFrac : ℝ,
      (App.derived S co2 otherForcing iceFrac cloudAlbedoDelta landFrac).alpha = 0.3 →
      S = 1361 →
      |(App.derived S co2 otherForcing iceFrac cloudAlbedoDelta landFrac).Te_noGHG - 255.0|
        < 0.5) := by
  constructor
  · intro S iceFrac cloudAlbedoDelta landFrac co2 otherForcing co2' otherForcing'
    rfl
  · intro S co2 otherForcing iceFrac cloudAlbedoDelta landFrac halpha hS
    rw [App.derived_Te_noGHG_def, halpha, hS]
    have hlo : (254.5 : ℝ) < (((1 - 0.3) * 1361) / 4 / App.SIGMA) ^ (0.25 : ℝ) := by
      apply lt_rpow_quarter_of_pow_lt _ _ (by norm_num)
      unfold App.SIGMA
      norm_num
    have hhi : ((((1 - 0.3) * 1361) / 4 / App.SIGMA) ^ (0.25 : ℝ)) < 255.5 := by
      apply rpow_quarter_lt_of_lt_pow _ _ ?_ (by norm_num)
      · unfold App.SIGMA
        norm_num
      · unfold App.SIGMA
        norm_num
    rw [abs_sub_lt_iff]
    constructor <;> linarith

/-- Witness for claim C9 at `S = 1361`, `iceFrac = 0`, `cloudAlbedoDelta =
0.24`, `landFrac = 0` (the composed albedo is exactly 0.30 there), with
`co2 = 420` and `otherForcing = 0`. -/
theorem te_noGHG_forcing_independent_witness :
    |(App.derived 1361 420 0 0 0.24 0).Te_noGHG - 255.0| < 0.5 :=
  te_noGHG_forcing_independent.2 1361 420 0 0 0.24 0
    (by rw [App.derived_alpha_def]
        norm_num [App.clamp, App.ALBEDO, min_def, max_def]) rfl

namespace Part000

/-- Stefan–Boltzmann constant; `const SIGMA` in the second variant file. -/
def SIGMA : ℝ := 5.670374419e-8

/-- Baseline reference values; `const BASE` in the second variant file
(note the literals `0.30` and `0.60` written with a trailing zero there). -/
def BASE : App.BaseVals :=
  { S := 1361, albedo := 0.30, T_obs := 288.0, C0 := 280, C_now := 420 }

/-- Embeds `function baselineGreenhouseF0()` of the second variant file. -/
def baselineGreenhouseF0 : ℝ :=
  let absorbed := (1 - BASE.albedo) * BASE.S / 4
  let sigmaT4 := SIGMA * BASE.T_obs ^ (4 : ℝ)
  sigmaT4 - absorbed

/-- Embeds `const F0 = baselineGreenhouseF0()` of the second variant file. -/
def F0 : ℝ := baselineGreenhouseF0

/-- Embeds `function forcingCO2(C, C0 = BASE.C0)` of the second variant file. -/
def forcingCO2 (C : ℝ) (C0 : ℝ := BASE.C0) : ℝ :=
  5.35 * Real.log (C / C0)

/-- Embeds `function clamp(x, min, max)` of the second variant file. -/
def clamp (x lo hi : ℝ) : ℝ :=
  max lo (min hi x)

/-- Embeds `const ALBEDO` (ocean 0.06, land 0.25, ice 0.60) of the second
variant file. -/
def ALBEDO : App.AlbedoVals :=
  { ocean := 0.06, land := 0.25, ice := 0.60 }

/-- The record returned by the `derived` memo in the second variant file
(it has no `dT_from_baseline` Kelvin field, unlike App.jsx). -/
structure Derived where
  alpha : ℝ
  absorbed : ℝ
  Fco2 : ℝ
  Fnet : ℝ
  T : ℝ
  T_C : ℝ
  Te_noGHG : ℝ
  Te_noGHG_C : ℝ
  dT_from_baseline_C : ℝ
  oceanFrac : ℝ
  landOnlyFrac : ℝ

/-- The `derived` computation of the second variant file (lines 39–73), as a
pure function of the six inputs. -/
def derived (S co2 otherForcing iceFrac cloudAlbedoDelta landFrac : ℝ) : Derived :=
  let nonIceFrac := clamp (1 - iceFrac) 0 1
  let oceanFrac := clamp (1 - landFrac) 0 1 * nonIceFrac
  let landOnlyFrac := landFrac * nonIceFrac
  let albedo_surface :=
    oceanFrac * ALBEDO.ocean + landOnlyFrac * ALBEDO.land + iceFrac * ALBEDO.ice
  let alpha := clamp (albedo_surface + cloudAlbedoDelta) 0.0 0.8
  let Fco2 := forcingCO2 co2 BASE.C0
  let Fnet := F0 + otherForcing + Fco2
  let absorbed := (1 - alpha) * S / 4
  let rhs := max 1e-3 (absorbed + Fnet)
  let T := (rhs / SIGMA) ^ (0.25 : ℝ)
  let Te_noGHG := (absorbed / SIGMA) ^ (0.25 : ℝ)
  let toC := fun (K : ℝ) => K - 273.15
  { alpha := alpha
    absorbed := absorbed
    Fco2 := Fco2
    Fnet := Fnet
    T := T
    T_C := toC T
    Te_noGHG := Te_noGHG
    Te_noGHG_C := toC Te_noGHG
    dT_from_baseline_C := toC T - toC BASE.T_obs
    oceanFrac := oceanFrac
    landOnlyFrac := landOnlyFrac }

end Part000

namespace App

/-- Written-out form of the absorbed-shortwave field of `derived`. -/
theorem derived_absorbed_def (S co2 otherForcing iceFrac cloudAlbedoDelta landFrac : ℝ) :
    (derived S co2 otherForcing iceFrac cloudAlbedoDelta landFrac).absorbed =
      ((1 - (derived S co2 otherForcing iceFrac cloudAlbedoDelta landFrac).alpha) * S) / 4 := rfl

/-- Written-out form of the CO₂-forcing field of `derived`. -/
theorem derived_Fco2_def (S co2 otherForcing iceFrac cloudAlbedoDelta landFrac : ℝ) :
    (derived S co2 otherForcing iceFrac cloudAlbedoDelta landFrac).Fco2 =
      forcingCO2 co2 BASE.C0 := rfl

/-- Written-out form of the net-forcing field of `derived`. -/
theorem derived_Fnet_def (S co2 otherForcing iceFrac cloudAlbedoDelta landFrac : ℝ) :
    (derived S co2 otherForcing iceFrac cloudAlbedoDelta landFrac).Fnet =
      F0 + otherForcing + forcingCO2 co2 BASE.C0 := rfl

/-- Written-out form of the equilibrium-temperature field of `derived` in terms
of its `absorbed` and `Fnet` fields. -/
theorem derived_T_def (S co2 otherForcing iceFrac cloudAlbedoDelta landFrac : ℝ) :
    (derived S co2 otherForcing iceFrac cloudAlbedoDelta landFrac).T =
      (max 1e-3 ((derived S co2 otherForcing iceFrac cloudAlbedoDelta landFrac).absorbed +
          (derived S co2 otherForcing iceFrac cloudAlbedoDelta landFrac).Fnet) / SIGMA) ^
        (0.25 : ℝ) := rfl

/-- Written-out form of the no-greenhouse-temperature field of `derived` in
terms of its `absorbed` field. -/
theorem derived_Te_noGHG_def' (S co2 otherForcing iceFrac cloudAlbedoDelta landFrac : ℝ) :
    (derived S co2 otherForcing iceFrac cloudAlbedoDelta landFrac).Te_noGHG =
      ((derived S co2 otherForcing iceFrac cloudAlbedoDelta landFrac).absorbed / SIGMA) ^
        (0.25 : ℝ) := rfl

/-- Written-out form of the Celsius-temperature field of `derived`. -/
theorem derived_T_C_def (S co2 otherForcing iceFrac cloudAlbedoDelta landFrac : ℝ) :
    (derived S co2 otherForcing iceFrac cloudAlbedoDelta landFrac).T_C =
      (derived S co2 otherForcing iceFrac cloudAlbedoDelta landFrac).T - 273.15 := rfl

/-- Written-out form of the Celsius no-greenhouse field of `derived`. -/
theorem derived_Te_noGHG_C_def (S co2 otherForcing iceFrac cloudAlbedoDelta landFrac : ℝ) :
    (derived S co2 otherForcing iceFrac cloudAlbedoDelta landFrac).Te_noGHG_C =
      (derived S co2 otherForcing iceFrac cloudAlbedoDelta landFrac).Te_noGHG - 273.15 := rfl

/-- Written-out form of the Celsius baseline-delta field of `derived`. -/
theorem derived_dT_C_def (S co2 otherForcing iceFrac cloudAlbedoDelta landFrac : ℝ) :
    (derived S co2 otherForcing iceFrac cloudAlbedoDelta landFrac).dT_from_baseline_C =
      ((derived S co2 otherForcing iceFrac cloudAlbedoDelta landFrac).T - 273.15) -
        (BASE.T_obs - 273.15) := rfl

end App

namespace Part000

/-- Written-out form of the composed albedo field of the variant's `derived`. -/
theorem derived_alpha_def_v (S co2 otherForcing iceFrac cloudAlbedoDelta landFrac : ℝ) :
    (derived S co2 otherForcing iceFrac cloudAlbedoDelta landFrac).alpha =
      clamp (clamp (1 - landFrac) 0 1 * clamp (1 - iceFrac) 0 1 * ALBEDO.ocean +
          landFrac * clamp (1 - iceFrac) 0 1 * ALBEDO.land +
          iceFrac * ALBEDO.ice + cloudAlbedoDelta) 0.0 0.8 := rfl

/-- Written-out form of the ocean-fraction field of the variant's `derived`. -/
theorem derived_oceanFrac_def_v (S co2 otherForcing iceFrac cloudAlbedoDelta landFrac : ℝ) :
    (derived S co2 otherForcing iceFrac cloudAlbedoDelta landFrac).oceanFrac =
      clamp (1 - landFrac) 0 1 * clamp (1 - iceFrac) 0 1 := rfl

/-- Written-out form of the land-only-fraction field of the variant's `derived`. -/
theorem derived_landOnlyFrac_def_v (S co2 otherForcing iceFrac cloudAlbedoDelta landFrac : ℝ) :
    (derived S co2 otherForcing iceFrac cloudAlbedoDelta landFrac).landOnlyFrac =
      landFrac * clamp (1 - iceFrac) 0 1 := rfl

/-- Written-out form of the absorbed-shortwave field of the variant's `derived`. -/
theorem derived_absorbed_def_v (S co2 otherForcing iceFrac cloudAlbedoDelta landFrac : ℝ) :
    (derived S co2 otherForcing iceFrac cloudAlbedoDelta landFrac).absorbed =
      (1 - (derived S co2 otherForcing iceFrac cloudAlbedoDelta landFrac).alpha) * S / 4 := rfl

/-- Written-out form of the CO₂-forcing field of the variant's `derived`. -/
theorem derived_Fco2_def_v (S co2 otherForcing iceFrac cloudAlbedoDelta landFrac : ℝ) :
    (derived S co2 otherForcing iceFrac cloudAlbedoDelta landFrac).Fco2 =
      forcingCO2 co2 BASE.C0 := rfl

/-- Written-out form of the net-forcing field of the variant's `derived`. -/
theorem derived_Fnet_def_v (S co2 otherForcing iceFrac cloudAlbedoDelta landFrac : ℝ) :
    (derived S co2 otherForcing iceFrac cloudAlbedoDelta landFrac).Fnet =
      F0 + otherForcing + forcingCO2 co2 BASE.C0 := rfl

/-- Written-out form of the equilibrium-temperature field of the variant's
`derived` in terms of its `absorbed` and `Fnet` fields. -/
theorem derived_T_def_v (S co2 otherForcing iceFrac cloudAlbedoDelta landFrac : ℝ) :
    (derived S co2 otherForcing iceFrac cloudAlbedoDelta landFrac).T =
      (max 1e-3 ((derived S co2 otherForcing iceFrac cloudAlbedoDelta landFrac).absorbed +
          (derived S co2 otherForcing iceFrac cloudAlbedoDelta landFrac).Fnet) / SIGMA) ^
        (0.25 : ℝ) := rfl

/-- Written-out form of the no-greenhouse-temperature field of the variant's
`derived` in terms of its `absorbed` field. -/
theorem derived_Te_noGHG_def_v (S co2 otherForcing iceFrac cloudAlbedoDelta landFrac : ℝ) :
    (derived S co2 otherForcing iceFrac cloudAlbedoDelta landFrac).Te_noGHG =
      ((derived S co2 otherForcing iceFrac cloudAlbedoDelta landFrac).absorbed / SIGMA) ^
        (0.25 : ℝ) := rfl

/-- Written-out form of the Celsius-temperature field of the variant's `derived`. -/
theorem derived_T_C_def_v (S co2 otherForcing iceFrac cloudAlbedoDelta landFrac : ℝ) :
    (derived S co2 otherForcing iceFrac cloudAlbedoDelta landFrac).T_C =
      (derived S co2 otherForcing iceFrac cloudAlbedoDelta landFrac).T - 273.15 := rfl

/-- Written-out form of the Celsius no-greenhouse field of the variant's `derived`. -/
theorem derived_Te_noGHG_C_def_v (S co2 otherForcing iceFrac cloudAlbedoDelta landFrac : ℝ) :
    (derived S co2 otherForcing iceFrac cloudAlbedoDelta landFrac).Te_noGHG_C =
      (derived S co2 otherForcing iceFrac cloudAlbedoDelta landFrac).Te_noGHG - 273.15 := rfl

/-- Written-out form of the Celsius baseline-delta field of the variant's `derived`. -/
theorem derived_dT_C_def_v (S co2 otherForcing iceFrac cloudAlbedoDelta landFrac : ℝ) :
    (derived S co2 otherForcing iceFrac cloudAlbedoDelta landFrac).dT_from_baseline_C =
      ((derived S co2 otherForcing iceFrac cloudAlbedoDelta landFrac).T - 273.15) -
        (BASE.T_obs - 273.15) := rfl

end Part000

/-- The two variants compute the same calibrated background forcing. -/
theorem F0_variants_eq : App.F0 = Part000.F0 := by
  unfold App.F0 Part000.F0 App.baselineGreenhouseF0 Part000.baselineGreenhouseF0
  norm_num [App.SIGMA, Part000.SIGMA, App.BASE, Part000.BASE]

/-- Claim C10 — The two source-file variants compute the same core model: for
every input tuple (`S`, `co2`, `otherForcing`, `iceFrac`, `cloudAlbedoDelta`,
`landFrac`), every derived output common to both files (`alpha`, `absorbed`,
`Fco2`, `Fnet`, `T`, `T_C`, `Te_noGHG`, `Te_noGHG_C`, `dT_from_baseline_C`,
`oceanFrac`, `landOnlyFrac`) computed by `src/src/App.jsx` equals the one
computed by `src/unnamed/part_000`, each file using its own (identical)
constants `SIGMA`, `BASE`, `ALBEDO` and `F0`. -/
theorem variants_equivalent (S co2 otherForcing iceFrac cloudAlbedoDelta landFrac : ℝ) :
    (App.derived S co2 otherForcing iceFrac cloudAlbedoDelta landFrac).alpha =
      (Part000.derived S co2 otherForcing iceFrac cloudAlbedoDelta landFrac).alpha ∧
    (App.derived S co2 otherForcing iceFrac cloudAlbedoDelta landFrac).absorbed =
      (Part000.derived S co2 otherForcing iceFrac cloudAlbedoDelta landFrac).absorbed ∧
    (App.derived S co2 otherForcing iceFrac cloudAlbedoDelta landFrac).Fco2 =
      (Part000.derived S co2 otherForcing iceFrac cloudAlbedoDelta landFrac).Fco2 ∧
    (App.derived S co2 otherForcing iceFrac cloudAlbedoDelta landFrac).Fnet =
      (Part000.derived S co2 otherForcing iceFrac cloudAlbedoDelta landFrac).Fnet ∧
    (App.derived S co2 otherForcing iceFrac cloudAlbedoDelta landFrac).T =
      (Part000.derived S co2 otherForcing iceFrac cloudAlbedoDelta landFrac).T ∧
    (App.derived S co2 otherForcing iceFrac cloudAlbedoDelta landFrac).T_C =
      (Part000.derived S co2 otherForcing iceFrac cloudAlbedoDelta landFrac).T_C ∧
    (App.derived S co2 otherForcing iceFrac cloudAlbedoDelta landFrac).Te_noGHG =
      (Part000.derived S co2 otherForcing iceFrac cloudAlbedoDelta landFrac).Te_noGHG ∧
    (App.derived S co2 otherForcing iceFrac cloudAlbedoDelta landFrac).Te_noGHG_C =
      (Part000.derived S co2 otherForcing iceFrac cloudAlbedoDelta landFrac).Te_noGHG_C ∧
    (App.derived S co2 otherForcing iceFrac cloudAlbedoDelta landFrac).dT_from_baseline_C =
      (Part000.derived S co2 otherForcing iceFrac cloudAlbedoDelta landFrac).dT_from_baseline_C ∧
    (App.derived S co2 otherForcing iceFrac cloudAlbedoDelta landFrac).oceanFrac =
      (Part000.derived S co2 otherForcing iceFrac cloudAlbedoDelta landFrac).oceanFrac ∧
    (App.derived S co2 otherForcing iceFrac cloudAlbedoDelta landFrac).landOnlyFrac =
      (Part000.derived S co2 otherForcing iceFrac cloudAlbedoDelta landFrac).landOnlyFrac := by
  have hice : App.ALBEDO.ice = Part000.ALBEDO.ice := by
    norm_num [App.ALBEDO, Part000.ALBEDO]
  have halpha : (App.derived S co2 otherForcing iceFrac cloudAlbedoDelta landFrac).alpha =
      (Part000.derived S co2 otherForcing iceFrac cloudAlbedoDelta landFrac).alpha := by
    rw [App.derived_alpha_def, Part000.derived_alpha_def_v, hice]
    rfl
  have habs : (App.derived S co2 otherForcing iceFrac cloudAlbedoDelta landFrac).absorbed =
      (Part000.derived S co2 otherForcing iceFrac cloudAlbedoDelta landFrac).absorbed := by
    rw [App.derived_absorbed_def, Part000.derived_absorbed_def_v, halpha]
  have hFco2 : (App.derived S co2 otherForcing iceFrac cloudAlbedoDelta landFrac).Fco2 =
      (Part000.derived S co2 otherForcing iceFrac cloudAlbedoDelta landFrac).Fco2 := by
    rw [App.derived_Fco2_def, Part000.derived_Fco2_def_v]
    rfl
  have hFnet : (App.derived S co2 otherForcing iceFrac cloudAlbedoDelta landFrac).Fnet =
      (Part000.derived S co2 otherForcing iceFrac cloudAlbedoDelta landFrac).Fnet := by
    rw [App.derived_Fnet_def, Part000.derived_Fnet_def_v, F0_variants_eq]
    rfl
  have hT : (App.derived S co2 otherForcing iceFrac cloudAlbedoDelta landFrac).T =
      (Part000.derived S co2 otherForcing iceFrac cloudAlbedoDelta landFrac).T := by
    rw [App.derived_T_def, Part000.derived_T_def_v, habs, hFnet]
    rfl
  have hTe : (App.derived S co2 otherForcing iceFrac cloudAlbedoDelta landFrac).Te_noGHG =
      (Part000.derived S co2 otherForcing iceFrac cloudAlbedoDelta landFrac).Te_noGHG := by
    rw [App.derived_Te_noGHG_def', Part000.derived_Te_noGHG_def_v, habs]
    rfl
  have hocean : (App.derived S co2 otherForcing iceFrac cloudAlbedoDelta landFrac).oceanFrac =
      (Part000.derived S co2 otherForcing iceFrac cloudAlbedoDelta landFrac).oceanFrac := by
    rw [App.derived_oceanFrac_def, Part000.derived_oceanFrac_def_v]
    rfl
  have hland :
      (App.derived S co2 otherForcing iceFrac cloudAlbedoDelta landFrac).landOnlyFrac =
      (Part000.derived S co2 otherForcing iceFrac cloudAlbedoDelta landFrac).landOnlyFrac := by
    rw [App.derived_landOnlyFrac_def, Part000.derived_landOnlyFrac_def_v]
    rfl
  refine ⟨halpha, habs, hFco2, hFnet, hT, ?_, hTe, ?_, ?_, hocean, hland⟩
  · rw [App.derived_T_C_def, Part000.derived_T_C_def_v, hT]
  · rw [App.derived_Te_noGHG_C_def, Part000.derived_Te_noGHG_C_def_v, hTe]
  · rw [App.derived_dT_C_def, Part000.derived_dT_C_def_v, hT]
    rfl
